import Mathlib

set_option autoImplicit false

/-!
Shallow embedding of the retrieval-and-response core of the
cofive-agentic-RAG repository (`api_server.py` and `src/agentic_rag.py`),
together with theorems about its filtering, post-processing, settings and
document-registry behaviour.

External effects (the vector store's similarity search, the LLM-backed
agent, the settings file, the wall clock) are passed in as explicit
oracle arguments; machine floats that are only ever compared are modelled
as rationals.
-/

namespace CofiveRAG

/-- JSON-like metadata values as they occur in chunk metadata and in
metadata filters. `null` models Python `None`, which is also the value
`dict.get` returns for a missing key. -/
inductive JValue where
  | null
  | str (s : String)
  | int (n : Int)
  | strList (xs : List String)
deriving DecidableEq

/-- Chunk/filter metadata: a Python dictionary with string keys. -/
abbrev Metadata := List (String × JValue)

/-- Python `d.get(k, dflt)`. -/
def pyGetD (md : Metadata) (k : String) (dflt : JValue) : JValue :=
  match md.lookup k with
  | some v => v
  | none => dflt

/-- Python `d.get(k)`: the stored value, or `None` when the key is absent. -/
def pyGet (md : Metadata) (k : String) : JValue :=
  pyGetD md k JValue.null

/-- Python truthiness for the metadata values of this system. -/
def pyTruthy : JValue → Bool
  | JValue.null => false
  | JValue.str s => !(s == "")
  | JValue.int n => !(n == 0)
  | JValue.strList xs => !xs.isEmpty

/-- Python `tag in doc_tags` for the tag values this system stores
(`add_documents` always stores the `tags` key as a list of strings;
membership in anything else never succeeds here). -/
def pyInTags (tag : String) : JValue → Bool
  | JValue.strList xs => xs.contains tag
  | _ => false

/-- A langchain document: page content plus metadata. -/
structure Doc where
  page_content : String
  metadata : Metadata
deriving DecidableEq

/-- Similarity scores are floats that the core only compares, never
combines; they are modelled as rationals. -/
abbrev Score := Rat

/-- The `InstructionSettings` pydantic model of `api_server.py`. -/
structure InstructionSettings where
  system_instruction : String
  response_length : String
  show_similarity_scores : Bool
  max_chunks : Nat
  similarity_threshold : Rat
deriving DecidableEq

/-- The tag check inside the filtering loop of `query_with_similarity`
(api_server.py:719-723): the chunk passes when its `tags` entry is truthy
and shares at least one tag with the requested tags (OR across tags). -/
def tagCheck (tags : List String) (doc_metadata : Metadata) : Bool :=
  let doc_tags := pyGetD doc_metadata "tags" (JValue.strList [])
  pyTruthy doc_tags && tags.any (fun tag => pyInTags tag doc_tags)

/-- The metadata-filter check inside the filtering loop
(api_server.py:726-728):
`all(doc_metadata.get(k) == v for k, v in metadata_filter.items())`. -/
def metadataCheck (metadata_filter : Metadata) (doc_metadata : Metadata) : Bool :=
  metadata_filter.all (fun kv => pyGet doc_metadata kv.1 == kv.2)

/-- The filtering loop of `query_with_similarity` on the tags/metadata path
(api_server.py:711-737), including the early stop once `max_chunks` results
have been collected. `collected` is `len(filtered_docs)` so far. -/
def filterLoop (st : InstructionSettings) (tags : List String)
    (metadata_filter : Metadata) : Nat → List (Doc × Score) → List (Doc × Score)
  | _, [] => []
  | collected, (doc, score) :: rest =>
    if score < st.similarity_threshold then
      filterLoop st tags metadata_filter collected rest
    else if !tags.isEmpty && !tagCheck tags doc.metadata then
      filterLoop st tags metadata_filter collected rest
    else if !metadata_filter.isEmpty && !metadataCheck metadata_filter doc.metadata then
      filterLoop st tags metadata_filter collected rest
    else if st.max_chunks ≤ collected + 1 then
      [(doc, score)]
    else
      (doc, score) :: filterLoop st tags metadata_filter (collected + 1) rest

/-- The no-filter path of `query_with_similarity` (api_server.py:739-742):
threshold cutoff, then truncation to `max_chunks`. -/
def thresholdTruncate (st : InstructionSettings) (l : List (Doc × Score)) :
    List (Doc × Score) :=
  (l.filter (fun ds => decide (st.similarity_threshold ≤ ds.2))).take st.max_chunks

/-- The whole filtering step of `query_with_similarity`
(api_server.py:710-744): the loop when a tag or metadata filter is present,
otherwise threshold-and-truncate. -/
def filterStep (st : InstructionSettings) (tags : List String)
    (metadata_filter : Metadata) (docs_with_scores : List (Doc × Score)) :
    List (Doc × Score) :=
  if !tags.isEmpty || !metadata_filter.isEmpty then
    filterLoop st tags metadata_filter 0 docs_with_scores
  else
    thresholdTruncate st docs_with_scores

/-- The `k` passed to `similarity_search_with_score` (api_server.py:698-703). -/
def searchK (st : InstructionSettings) (tags : List String)
    (metadata_filter : Metadata) : Nat :=
  if !tags.isEmpty || !metadata_filter.isEmpty then min (st.max_chunks * 2) 20
  else st.max_chunks

/-- The length-instruction table of `_get_length_instruction`
(api_server.py:517-526); an unknown length class falls back to `short`. -/
def getLengthInstruction (length : String) : String :=
  if length == "short" then
    "คำสั่งสำคัญ: ตอบให้สั้นที่สุด ไม่เกิน 300 ตัวอักษรเด็ดขาด! ห้ามใช้รายการ ห้ามใช้เลขหัวข้อ ห้ามใช้ขีดกลาง ห้ามใช้ ** ห้ามใช้ดาว ตอบเป็นข้อความเดียวต่อเนื่อง ไม่มีการจัดรูปแบบใดๆ กระชับ ตรงประเด็น เหมาะสำหรับการฟังทางโทร นับตัวอักษรก่อนตอบ หยุดเมื่อถึง 300 ตัวอักษร STOP AT 300 CHARACTERS!"
  else if length == "medium" then
    "Provide a balanced response with key details (2-4 paragraphs)."
  else if length == "long" then
    "Give a comprehensive response with detailed explanations (4-6 paragraphs)."
  else if length == "detailed" then
    "Provide an exhaustive, detailed analysis with all relevant information, examples, and thorough explanations."
  else
    "คำสั่งสำคัญ: ตอบให้สั้นที่สุด ไม่เกิน 300 ตัวอักษรเด็ดขาด! ห้ามใช้รายการ ห้ามใช้เลขหัวข้อ ห้ามใช้ขีดกลาง ห้ามใช้ ** ห้ามใช้ดาว ตอบเป็นข้อความเดียวต่อเนื่อง ไม่มีการจัดรูปแบบใดๆ กระชับ ตรงประเด็น เหมาะสำหรับการฟังทางโทร นับตัวอักษรก่อนตอบ หยุดเมื่อถึง 300 ตัวอักษร STOP AT 300 CHARACTERS!"

/-- The instruction-augmented prompt built by `query_with_similarity`
(api_server.py:788-805). -/
def enhancedQuestion (st : InstructionSettings) (question : String) : String :=
  "CRITICAL INSTRUCTION - MUST FOLLOW EXACTLY:\n" ++ st.system_instruction ++
  "\n\nSTRICT LENGTH REQUIREMENT - THIS IS MANDATORY:\n" ++
  getLengthInstruction st.response_length ++
  "\n\nRULES YOU MUST FOLLOW:\n- If response_length is \"short\": MAXIMUM 300 characters, NO EXCEPTIONS\n- NO bullet points, NO numbered lists, NO formatting\n- Write as one continuous paragraph only\n- Count characters before responding\n- Stop writing when you reach the limit\n\nIMPORTANT: Always base your answers on the provided document context and cite your sources clearly.\n\nUser Question: " ++ question

/-- Python code-point slice `s[:n]`. -/
def pySlice (s : String) (n : Nat) : String :=
  String.mk (s.data.take n)

/-- Python `s.rfind(c)`: the highest index holding `c`, or `-1`. -/
def pyRfind (s : String) (c : Char) : Int :=
  match s.data.reverse.findIdx? (fun x => x == c) with
  | some i => ((s.data.length - 1 - i : Nat) : Int)
  | none => -1

/-- The short-answer post-processing of `query_with_similarity`
(api_server.py:806-816): answers over 300 characters are cut at the last
space when that space lies after position 250, otherwise at 297, and an
ellipsis marker is appended. -/
def shortTruncate (original_answer : String) : String :=
  if 300 < original_answer.length then
    let truncated := pySlice original_answer 300
    let last_space := pyRfind truncated ' '
    if 250 < last_space then
      pySlice truncated last_space.toNat ++ "..."
    else
      pySlice truncated 297 ++ "..."
  else
    original_answer

/-- The dictionary returned by `AgenticRAG.query`
(src/agentic_rag.py:112-170): always `answer`, `sources` and `success`,
plus an `error` entry on its internal failure paths. -/
structure AgentResult where
  answer : String
  sources : List String
  success : Bool
  error : Option String
deriving DecidableEq

/-- One entry of the `similarity_scores` list (api_server.py:765-786). -/
structure SimilarityInfo where
  source : JValue
  content : String
  score : Rat
  tags : JValue
  metadata : Option Metadata
deriving DecidableEq

/-- Python `doc_metadata.get('filename') or doc_metadata.get('source', 'Unknown')`. -/
def simSource (md : Metadata) : JValue :=
  let fn := pyGet md "filename"
  if pyTruthy fn then fn else pyGetD md "source" (JValue.str "Unknown")

/-- Content preview used in similarity info: first 150 characters plus an
ellipsis when longer. -/
def simContent (content : String) : String :=
  if 150 < content.length then pySlice content 150 ++ "..." else content

/-- Python `round(x, 3)` idealised over the rationals: round half to even. -/
def roundHalfEven (x : Rat) : Int :=
  let f := Int.floor x
  let frac := x - (f : Rat)
  if frac < 1/2 then f
  else if 1/2 < frac then f + 1
  else if f % 2 = 0 then f else f + 1

/-- Three-decimal rounding of a similarity score. -/
def pyRound3 (x : Rat) : Rat :=
  (roundHalfEven (x * 1000) : Rat) / 1000

/-- The metadata keys excluded from the per-chunk custom metadata echo. -/
def systemFields : List String := ["source", "filename", "document_id", "tags"]

/-- The custom-metadata echo: non-system entries, or `None` when empty. -/
def simCustomMetadata (md : Metadata) : Option Metadata :=
  let filtered :=
    if !md.isEmpty then md.filter (fun kv => !systemFields.contains kv.1) else []
  if filtered.isEmpty then none else some filtered

/-- One similarity-info entry for a retained (chunk, score) pair. -/
def mkSimilarityInfo (p : Doc × Score) : SimilarityInfo :=
  { source := simSource p.1.metadata
    content := simContent p.1.page_content
    score := pyRound3 p.2
    tags := pyGet p.1.metadata "tags"
    metadata := simCustomMetadata p.1.metadata }

/-- Snapshot of the four settings echoed as `settings_used` in every
result dictionary. -/
structure SettingsUsed where
  response_length : String
  max_chunks : Nat
  similarity_threshold : Rat
  show_similarity_scores : Bool
deriving DecidableEq

/-- Build the `settings_used` snapshot from the active settings. -/
def settingsUsed (st : InstructionSettings) : SettingsUsed :=
  ⟨st.response_length, st.max_chunks, st.similarity_threshold, st.show_similarity_scores⟩

/-- The result dictionary of `query_with_similarity`. `sources` is present
only on the path that went through the agent; the error dictionaries carry
no `sources` entry. -/
structure QueryResult where
  success : Bool
  answer : String
  similarity_scores : Option (List SimilarityInfo)
  chunks_retrieved : Nat
  settings_used : SettingsUsed
  error : Option String
  sources : Option (List String)
deriving DecidableEq

/-- Outcome of one call to `query_with_similarity`: Python either returns
a dictionary or raises an exception. -/
inductive QueryOutcome where
  | raised (msg : String)
  | returned (r : QueryResult)
deriving DecidableEq

/-- The fixed result returned when the vector store is uninitialised
(api_server.py:682-696). -/
def storeNotReadyResult (st : InstructionSettings) : QueryResult :=
  { success := false
    answer := "ไม่สามารถตอบคำถามได้ เนื่องจากระบบเก็บข้อมูลยังไม่พร้อม"
    similarity_scores := none
    chunks_retrieved := 0
    settings_used := settingsUsed st
    error := some "Vector store not initialized"
    sources := none }

/-- The fixed "cannot answer" result returned when nothing survives the
threshold and filters (api_server.py:746-760). -/
def noRelevantResult (st : InstructionSettings) : QueryResult :=
  { success := false
    answer := "ไม่สามารถตอบคำถามได้ เนื่องจากไม่พบข้อมูลที่เกี่ยวข้องในเอกสาร"
    similarity_scores := none
    chunks_retrieved := 0
    settings_used := settingsUsed st
    error := some "No relevant documents found above similarity threshold"
    sources := none }

/-- The two fallback results of the outer `except` block
(api_server.py:830-864): one message when no documents are in the system,
another for any other search-system error. -/
def searchExceptionResult (st : InstructionSettings) (documentCount : Nat)
    (e : String) : QueryResult :=
  if documentCount = 0 then
    { success := false
      answer := "ไม่สามารถตอบคำถามได้ เนื่องจากไม่มีเอกสารในระบบ กรุณาอัพโหลดเอกสารก่อน"
      similarity_scores := none
      chunks_retrieved := 0
      settings_used := settingsUsed st
      error := some "No documents available in system"
      sources := none }
  else
    { success := false
      answer := "ไม่สามารถตอบคำถามได้ เนื่องจากเกิดข้อผิดพลาดในการค้นหาข้อมูล"
      similarity_scores := none
      chunks_retrieved := 0
      settings_used := settingsUsed st
      error := some ("Search system error: " ++ e)
      sources := none }

/-- Shallow embedding of `AgenticRAGSystem.query_with_similarity`
(api_server.py:674-864). External effects are oracles: `search k` is the
vector store's `similarity_search_with_score` call (a candidate list, or a
raised exception message caught by the outer `except`), and `agentQuery q`
is `self.agent.query(q)` (a result dictionary, or a raised exception).
The Boolean in the result records whether the generation agent was
invoked. -/
def query_with_similarity (agentReady : Bool) (vectorStoreReady : Bool)
    (st : InstructionSettings) (documentCount : Nat)
    (search : Nat → Except String (List (Doc × Score)))
    (agentQuery : String → Except String AgentResult)
    (question : String) (tags : List String) (metadata_filter : Metadata) :
    QueryOutcome × Bool :=
  if !agentReady then
    (QueryOutcome.raised "Agent not initialized", false)
  else if !vectorStoreReady then
    (QueryOutcome.returned (storeNotReadyResult st), false)
  else
    match search (searchK st tags metadata_filter) with
    | Except.error e =>
      (QueryOutcome.returned (searchExceptionResult st documentCount e), false)
    | Except.ok docs_with_scores =>
      let filtered_docs := filterStep st tags metadata_filter docs_with_scores
      if filtered_docs.length = 0 then
        (QueryOutcome.returned (noRelevantResult st), false)
      else
        let similarity_info :=
          if st.show_similarity_scores then filtered_docs.map mkSimilarityInfo else []
        match agentQuery (enhancedQuestion st question) with
        | Except.error e =>
          (QueryOutcome.returned (searchExceptionResult st documentCount e), true)
        | Except.ok result =>
          let answer :=
            if st.response_length == "short" then shortTruncate result.answer
            else result.answer
          (QueryOutcome.returned
            { success := result.success
              answer := answer
              similarity_scores :=
                if st.show_similarity_scores then some similarity_info else none
              chunks_retrieved := filtered_docs.length
              settings_used := settingsUsed st
              error := result.error
              sources := some result.sources }, true)

/-- Shallow embedding of `AgenticRAGSystem.update_settings`
(api_server.py:503-511). `saveOk` is the outcome of `_save_settings`
(api_server.py:493-501), a write to the external settings file; the
in-memory settings are swapped only when it succeeds. -/
def update_settings (current_settings : InstructionSettings)
    (new_settings : InstructionSettings) (saveOk : Bool) :
    Bool × InstructionSettings :=
  if saveOk then (true, new_settings) else (false, current_settings)

/-- Shallow embedding of `AgenticRAGSystem.get_settings`
(api_server.py:513-515). -/
def get_settings (current_settings : InstructionSettings) : InstructionSettings :=
  current_settings

/-- The `DocumentInfo` record tracked per uploaded document
(api_server.py:568-577); absent optional tags/metadata are the empty
list, which shares Python truthiness with `None` everywhere they are
used. -/
structure DocumentInfo where
  id : String
  filename : String
  file_type : String
  file_size : Option Nat
  upload_time : String
  chunk_count : Nat
  content_preview : Option String
  tags : List String
  metadata : Metadata
deriving DecidableEq

/-- The mutable fields of `AgenticRAGSystem` that the registry operations
touch (api_server.py:460-472); the vector store is the list of indexed
chunk vectors. The agent/model fields are irrelevant to these operations
and omitted. -/
structure RagState where
  uploaded_documents : List (String × DocumentInfo)
  document_chunks : List (String × List Doc)
  document_counter : Nat
  metadata_cache : List (String × (List String × Metadata))
  vector_store : List Doc
deriving DecidableEq

/-- The state right after `AgenticRAGSystem.__init__` with no persisted
store on disk. -/
def initialState : RagState :=
  { uploaded_documents := []
    document_chunks := []
    document_counter := 0
    metadata_cache := []
    vector_store := [] }

/-- Python `f"doc_hhh:08d"`-style zero padding: pad the decimal digits on
the left with `'0'` up to the requested width. -/
def zfill (s : String) (width : Nat) : String :=
  if width ≤ s.length then s
  else String.mk (List.replicate (width - s.length) '0') ++ s

/-- The document id produced by `_generate_document_id`
(api_server.py:527-530) when the counter has just been incremented to
`n`. -/
def formatDocId (n : Nat) : String :=
  "doc_" ++ zfill (Nat.repr n) 8

/-- Removal of a key: Python `del d[k]` (keys of these dictionaries are
unique, so filtering removes exactly that entry). -/
def eraseKey {α : Type} (k : String) (l : List (String × α)) : List (String × α) :=
  l.filter (fun p => !(p.1 == k))

/-- Python `d[k] = v`: replace in place when the key is present, append
otherwise. -/
def setKey {α : Type} (l : List (String × α)) (k : String) (v : α) :
    List (String × α) :=
  if l.any (fun p => p.1 == k) then
    l.map (fun p => if p.1 == k then (k, v) else p)
  else
    l ++ [(k, v)]

/-- Python `d.update(other)`. -/
def dictUpdate (l other : Metadata) : Metadata :=
  other.foldl (fun acc kv => setKey acc kv.1 kv.2) l

/-- Python `Path(filename).suffix` for the plain file names this system
sees: the final dot-suffix, empty when there is no dot. -/
def pySuffix (filename : String) : String :=
  let parts := filename.splitOn "."
  if parts.length ≤ 1 then "" else "." ++ parts.getLastD ""

/-- Python slice `s[n:]` by code points. -/
def pySliceFrom (s : String) (n : Nat) : String :=
  String.mk (s.data.drop n)

/-- The file-type detection of `add_documents` (api_server.py:536-541). -/
def fileTypeOf (filename : Option String) : String :=
  match filename with
  | none => "unknown"
  | some fn =>
    let file_ext := (pySuffix fn).toLower
    if file_ext == ".pdf" || file_ext == ".txt" || file_ext == ".md" then
      pySliceFrom file_ext 1
    else
      "unknown"

/-- The content preview of `add_documents` (api_server.py:561-566): first
200 characters of the first chunk, with an ellipsis when longer. -/
def contentPreview (documents : List Doc) : Option String :=
  match documents with
  | [] => none
  | d :: _ =>
    some (if 200 < d.page_content.length then pySlice d.page_content 200 ++ "..."
          else d.page_content)

/-- The `common_metadata` dictionary stamped onto every chunk by
`add_documents` (api_server.py:543-552). -/
def commonMetadata (doc_id : String) (filename : Option String)
    (tags : List String) (metadata : Metadata) : Metadata :=
  let base := [("document_id", JValue.str doc_id),
               ("filename", JValue.str (filename.getD ("document_" ++ doc_id)))]
  let withTags := if !tags.isEmpty then base ++ [("tags", JValue.strList tags)] else base
  dictUpdate withTags metadata

/-- Stamping of `common_metadata` onto one chunk (api_server.py:555-558). -/
def stampDoc (common : Metadata) (d : Doc) : Doc :=
  { d with metadata := dictUpdate d.metadata common }

/-- Shallow embedding of `AgenticRAGSystem.add_documents`
(api_server.py:532-597). `now` stands for `datetime.now().isoformat()`;
the agent auto-initialisation at the end touches none of the tracked
fields and is omitted. -/
def add_documents (s : RagState) (documents : List Doc) (filename : Option String)
    (file_size : Option Nat) (tags : List String) (metadata : Metadata)
    (now : String) : RagState :=
  let doc_id := formatDocId (s.document_counter + 1)
  let common := commonMetadata doc_id filename tags metadata
  let stamped := documents.map (stampDoc common)
  let info : DocumentInfo :=
    { id := doc_id
      filename := filename.getD ("document_" ++ doc_id)
      file_type := fileTypeOf filename
      file_size := file_size
      upload_time := now
      chunk_count := documents.length
      content_preview := contentPreview stamped
      tags := tags
      metadata := metadata }
  { uploaded_documents := setKey s.uploaded_documents doc_id info
    document_chunks := setKey s.document_chunks doc_id stamped
    document_counter := s.document_counter + 1
    metadata_cache :=
      if !tags.isEmpty || !metadata.isEmpty then
        setKey s.metadata_cache doc_id (tags, metadata)
      else s.metadata_cache
    vector_store := s.vector_store ++ stamped }

/-- Shallow embedding of `AgenticRAGSystem.get_document`
(api_server.py:603-605). -/
def get_document (s : RagState) (doc_id : String) : Option DocumentInfo :=
  s.uploaded_documents.lookup doc_id

/-- Shallow embedding of `AgenticRAGSystem.get_document_count`
(api_server.py:645-647). -/
def get_document_count (s : RagState) : Nat :=
  s.uploaded_documents.length

/-- Shallow embedding of `AgenticRAGSystem.delete_document`
(api_server.py:608-626): an untracked id returns `False` untouched; a
tracked id is removed from the two tracking dictionaries only — the
vector store is deliberately left as is (the source notes the store does
not support selective deletion). -/
def delete_document (s : RagState) (doc_id : String) : Bool × RagState :=
  if !(s.uploaded_documents.any (fun p => p.1 == doc_id)) then
    (false, s)
  else
    (true,
      { s with
        uploaded_documents := eraseKey doc_id s.uploaded_documents
        document_chunks :=
          if s.document_chunks.any (fun p => p.1 == doc_id) then
            eraseKey doc_id s.document_chunks
          else s.document_chunks })

/-- Shallow embedding of `AgenticRAGSystem.clear_all_documents`
(api_server.py:628-643): every tracking structure is emptied, the counter
is reset to zero and the vector store is reinitialised. -/
def clear_all_documents (s : RagState) : Bool × RagState :=
  (true,
    { uploaded_documents := []
      document_chunks := []
      document_counter := 0
      metadata_cache := []
      vector_store := [] })

/-- A registry operation, for reasoning about operation sequences. -/
inductive RegOp where
  | add (documents : List Doc) (filename : Option String) (file_size : Option Nat)
        (tags : List String) (metadata : Metadata) (now : String)
  | delete (doc_id : String)
  | clearAll
deriving DecidableEq

/-- Effect of one registry operation on the state. -/
def stepOp (s : RagState) : RegOp → RagState
  | RegOp.add documents filename file_size tags metadata now =>
    add_documents s documents filename file_size tags metadata now
  | RegOp.delete doc_id => (delete_document s doc_id).2
  | RegOp.clearAll => (clear_all_documents s).2

/-- Run a sequence of registry operations. -/
def runOps (s : RagState) : List RegOp → RagState
  | [] => s
  | op :: rest => runOps (stepOp s op) rest

/-- The document ids assigned by the `add` operations of a sequence, in
order. -/
def assignedIds (s : RagState) : List RegOp → List String
  | [] => []
  | op :: rest =>
    match op with
    | RegOp.add _ _ _ _ _ _ =>
      formatDocId (s.document_counter + 1) :: assignedIds (stepOp s op) rest
    | _ => assignedIds (stepOp s op) rest

/-- The counter values backing the ids assigned by the `add` operations of
a sequence, in order. -/
def assignedCounters (s : RagState) : List RegOp → List Nat
  | [] => []
  | op :: rest =>
    match op with
    | RegOp.add _ _ _ _ _ _ =>
      (s.document_counter + 1) :: assignedCounters (stepOp s op) rest
    | _ => assignedCounters (stepOp s op) rest

/-! Decimal-representation facts used for document-id uniqueness. -/

/-- Numeric value of a list of decimal digit characters, read left to
right onto an accumulator (the inverse reading of `Nat.toDigits 10`). -/
def digitsValFrom : Nat → List Char → Nat
  | a, [] => a
  | a, c :: cs => digitsValFrom (a * 10 + (c.toNat - 48)) cs

/-- The decimal digits of `n` pushed onto the accumulator `a`. -/
def pushNum (a : Nat) (n : Nat) : Nat :=
  if _h : n < 10 then a * 10 + n
  else pushNum a (n / 10) * 10 + n % 10
decreasing_by exact Nat.div_lt_self (by omega) (by omega)

/-- Registry invariant: every tracked id was minted by the counter — it is
`formatDocId m` for some positive `m` not exceeding the current counter. -/
def idsBounded (s : RagState) : Prop :=
  ∀ id ∈ s.uploaded_documents.map Prod.fst,
    ∃ m, 1 ≤ m ∧ m ≤ s.document_counter ∧ id = formatDocId m

/-! Concrete fixtures used by witnesses and counterexamples. -/

/-- The optimized default settings built by `_load_settings` when no
settings file exists (api_server.py:484-491). -/
def defaultSettings : InstructionSettings :=
  { system_instruction := "คุณเป็น AI ที่ตอบคำถามแบบสั้นกระชับ ตรงประเด็น อ้างอิงจากเอกสารที่มี"
    response_length := "short"
    show_similarity_scores := false
    max_chunks := 3
    similarity_threshold := 1/5 }

/-- A one-chunk sample document. -/
def sampleDoc : Doc :=
  { page_content := "Python is great"
    metadata := [("source", JValue.str "a.txt"), ("tags", JValue.strList ["lang"])] }

/-- A successful agent answer. -/
def sampleAgentResult : AgentResult :=
  { answer := "Python is a programming language."
    sources := ["a.txt"]
    success := true
    error := none }

/-- A similarity search that finds nothing. -/
def emptySearch : Nat → Except String (List (Doc × Score)) :=
  fun _ => Except.ok []

/-- A similarity search whose backend raises. -/
def failingSearch : Nat → Except String (List (Doc × Score)) :=
  fun _ => Except.error "boom"

/-- An agent oracle that always answers. -/
def sampleAgent : String → Except String AgentResult :=
  fun _ => Except.ok sampleAgentResult

/-- A concrete 310-character raw answer for the short post-processor:
299 letters, then a space at index 299, then ten more letters. -/
def c5Input : String :=
  String.mk (List.replicate 299 'a' ++ ' ' :: List.replicate 10 'b')

/-- The tracked record behind the C8 witness. -/
def sampleInfo : DocumentInfo :=
  { id := "doc_00000001"
    filename := "a.txt"
    file_type := "txt"
    file_size := none
    upload_time := "2025-01-01T00:00:00"
    chunk_count := 1
    content_preview := some "Python is great"
    tags := ["lang"]
    metadata := [] }

/-- A state tracking exactly one document. -/
def trackedState : RagState :=
  { uploaded_documents := [("doc_00000001", sampleInfo)]
    document_chunks := [("doc_00000001", [sampleDoc])]
    document_counter := 1
    metadata_cache := []
    vector_store := [sampleDoc] }

/-- The add operation used in the C9 fixtures. -/
def addOp : RegOp := RegOp.add [sampleDoc] (some "a.txt") none [] [] "t"

/-! Theorems. -/

theorem digitsValFrom_nil (a : Nat) : digitsValFrom a [] = a := rfl

theorem digitsValFrom_cons (a : Nat) (c : Char) (cs : List Char) :
    digitsValFrom a (c :: cs) = digitsValFrom (a * 10 + (c.toNat - 48)) cs := rfl

theorem pushNum_lt (a n : Nat) (h : n < 10) : pushNum a n = a * 10 + n := by
  unfold pushNum
  rw [dif_pos h]

theorem pushNum_ge (a n : Nat) (h : ¬ n < 10) :
    pushNum a n = pushNum a (n / 10) * 10 + n % 10 := by
  conv_lhs => unfold pushNum
  rw [dif_neg h]

theorem pushNum_zero (n : Nat) : pushNum 0 n = n := by
  induction n using Nat.strong_induction_on with
  | _ n ih =>
    by_cases h : n < 10
    · rw [pushNum_lt 0 n h]; omega
    · rw [pushNum_ge 0 n h, ih (n / 10) (Nat.div_lt_self (by omega) (by omega))]
      omega

theorem digitChar_toNat_sub (d : Nat) (hd : d < 10) :
    (Nat.digitChar d).toNat - 48 = d := by
  interval_cases d <;> rfl

theorem digitsValFrom_toDigitsCore (fuel : Nat) :
    ∀ (n : Nat) (ds : List Char) (a : Nat), n < fuel →
      digitsValFrom a (Nat.toDigitsCore 10 fuel n ds) =
        digitsValFrom (pushNum a n) ds := by
  induction fuel with
  | zero => intro n ds a h; omega
  | succ fuel ih =>
    intro n ds a h
    simp only [Nat.toDigitsCore]
    by_cases hz : n / 10 = 0
    · rw [if_pos hz]
      have hn : n < 10 := by omega
      rw [digitsValFrom_cons]
      rw [digitChar_toNat_sub (n % 10) (Nat.mod_lt n (by omega)),
        Nat.mod_eq_of_lt hn, pushNum_lt a n hn]
    · rw [if_neg hz]
      have hn : ¬ n < 10 := by omega
      have hlt : n / 10 < fuel := by omega
      rw [ih (n / 10) (Nat.digitChar (n % 10) :: ds) a hlt]
      rw [digitsValFrom_cons]
      rw [digitChar_toNat_sub (n % 10) (Nat.mod_lt n (by omega)),
        pushNum_ge a n hn]

theorem digitsValFrom_toDigits (n : Nat) :
    digitsValFrom 0 (Nat.toDigits 10 n) = n := by
  show digitsValFrom 0 (Nat.toDigitsCore 10 (n + 1) n []) = n
  rw [digitsValFrom_toDigitsCore (n + 1) n [] 0 (Nat.lt_succ_self n)]
  rw [digitsValFrom_nil]
  exact pushNum_zero n

theorem digitsValFrom_replicate_zero (k : Nat) (l : List Char) :
    digitsValFrom 0 (List.replicate k '0' ++ l) = digitsValFrom 0 l := by
  induction k with
  | zero => rfl
  | succ k ih =>
    have h0 : (0 : Nat) * 10 + ('0'.toNat - 48) = 0 := by decide
    rw [List.replicate_succ, List.cons_append, digitsValFrom_cons, h0]
    exact ih

theorem repr_data (n : Nat) : (Nat.repr n).data = Nat.toDigits 10 n := rfl

theorem digitsValFrom_zfill_repr (n width : Nat) :
    digitsValFrom 0 (zfill (Nat.repr n) width).data = n := by
  unfold zfill
  split
  · rw [repr_data]; exact digitsValFrom_toDigits n
  · show digitsValFrom 0
      (String.mk (List.replicate (width - (Nat.repr n).length) '0') ++ Nat.repr n).data = n
    rw [String.data_append]
    show digitsValFrom 0
      (List.replicate (width - (Nat.repr n).length) '0' ++ (Nat.repr n).data) = n
    rw [digitsValFrom_replicate_zero, repr_data]
    exact digitsValFrom_toDigits n

theorem formatDocId_inj (m n : Nat) (h : formatDocId m = formatDocId n) : m = n := by
  have hd : (formatDocId m).data = (formatDocId n).data := by rw [h]
  unfold formatDocId at hd
  rw [String.data_append, String.data_append] at hd
  have hz : (zfill (Nat.repr m) 8).data = (zfill (Nat.repr n) 8).data :=
    List.append_cancel_left hd
  calc m = digitsValFrom 0 (zfill (Nat.repr m) 8).data := (digitsValFrom_zfill_repr m 8).symm
    _ = digitsValFrom 0 (zfill (Nat.repr n) 8).data := by rw [hz]
    _ = n := digitsValFrom_zfill_repr n 8

/-! Equation lemmas and helper lemmas. -/

theorem filterLoop_nil (st : InstructionSettings) (tags : List String)
    (metadata_filter : Metadata) (collected : Nat) :
    filterLoop st tags metadata_filter collected [] = [] := rfl

theorem filterLoop_cons (st : InstructionSettings) (tags : List String)
    (metadata_filter : Metadata) (collected : Nat) (doc : Doc) (score : Score)
    (rest : List (Doc × Score)) :
    filterLoop st tags metadata_filter collected ((doc, score) :: rest) =
      (if score < st.similarity_threshold then
        filterLoop st tags metadata_filter collected rest
      else if !tags.isEmpty && !tagCheck tags doc.metadata then
        filterLoop st tags metadata_filter collected rest
      else if !metadata_filter.isEmpty && !metadataCheck metadata_filter doc.metadata then
        filterLoop st tags metadata_filter collected rest
      else if st.max_chunks ≤ collected + 1 then
        [(doc, score)]
      else
        (doc, score) :: filterLoop st tags metadata_filter (collected + 1) rest) := rfl

theorem filterLoop_all_below (st : InstructionSettings) (tags : List String)
    (metadata_filter : Metadata) (l : List (Doc × Score))
    (hall : ∀ p ∈ l, p.2 < st.similarity_threshold) :
    ∀ collected, filterLoop st tags metadata_filter collected l = [] := by
  induction l with
  | nil => intro collected; rfl
  | cons p rest ih =>
    intro collected
    obtain ⟨doc, score⟩ := p
    have hs : score < st.similarity_threshold := hall (doc, score) (List.mem_cons_self _ _)
    rw [filterLoop_cons, if_pos hs]
    exact ih (fun q hq => hall q (List.mem_cons_of_mem _ hq)) collected

theorem thresholdTruncate_all_below (st : InstructionSettings)
    (l : List (Doc × Score)) (hall : ∀ p ∈ l, p.2 < st.similarity_threshold) :
    thresholdTruncate st l = [] := by
  unfold thresholdTruncate
  have h : l.filter (fun ds => decide (st.similarity_threshold ≤ ds.2)) = [] := by
    apply List.filter_eq_nil_iff.mpr
    intro p hp
    simp only [decide_eq_true_eq]
    exact not_le.mpr (hall p hp)
  rw [h, List.take_nil]

theorem filterStep_all_below (st : InstructionSettings) (tags : List String)
    (metadata_filter : Metadata) (l : List (Doc × Score))
    (hall : ∀ p ∈ l, p.2 < st.similarity_threshold) :
    filterStep st tags metadata_filter l = [] := by
  unfold filterStep
  split
  · exact filterLoop_all_below st tags metadata_filter l hall 0
  · exact thresholdTruncate_all_below st l hall

theorem pyGet_eq_iff (md : Metadata) (k : String) (v : JValue) :
    pyGet md k = v ↔
      (md.lookup k = some v ∨ (md.lookup k = none ∧ v = JValue.null)) := by
  unfold pyGet pyGetD
  cases h : md.lookup k <;> simp [h]
  exact eq_comm

theorem metadataCheck_iff (metadata_filter doc_metadata : Metadata) :
    metadataCheck metadata_filter doc_metadata = true ↔
      ∀ kv ∈ metadata_filter,
        doc_metadata.lookup kv.1 = some kv.2 ∨
          (doc_metadata.lookup kv.1 = none ∧ kv.2 = JValue.null) := by
  unfold metadataCheck
  rw [List.all_eq_true]
  constructor
  · intro h kv hkv
    exact (pyGet_eq_iff _ _ _).mp (eq_of_beq (h kv hkv))
  · intro h kv hkv
    exact beq_iff_eq.mpr ((pyGet_eq_iff _ _ _).mpr (h kv hkv))

theorem tagCheck_iff (tags : List String) (md : Metadata) (ds : List String)
    (h : md.lookup "tags" = some (JValue.strList ds)) :
    tagCheck tags md = true ↔ ∃ t, t ∈ tags ∧ t ∈ ds := by
  unfold tagCheck pyGetD
  rw [h]
  simp only [pyTruthy, pyInTags, Bool.and_eq_true, List.any_eq_true,
    Bool.not_eq_true', List.isEmpty_eq_false_iff_exists_mem, List.contains_iff_exists_mem_beq]
  constructor
  · rintro ⟨-, t, ht, u, hu, hb⟩
    exact ⟨t, ht, (eq_of_beq hb) ▸ hu⟩
  · rintro ⟨t, ht, hmem⟩
    exact ⟨⟨t, hmem⟩, t, ht, t, hmem, beq_self_eq_true t⟩

theorem filterLoop_disjoint_tags (st : InstructionSettings) (T1 T2 : List String)
    (l : List (Doc × Score))
    (hdisj : ∀ t ∈ T1, t ∉ T2) (hT2 : T2 ≠ [])
    (hl : ∀ p ∈ l, ∃ ds,
        (Prod.fst p).metadata.lookup "tags" = some (JValue.strList ds) ∧
          ∀ t ∈ ds, t ∈ T1) :
    ∀ collected, filterLoop st T2 [] collected l = [] := by
  induction l with
  | nil => intro c; rfl
  | cons p rest ih =>
    intro c
    obtain ⟨doc, score⟩ := p
    obtain ⟨ds, hds, hsub⟩ := hl (doc, score) (List.mem_cons_self _ _)
    have htc : tagCheck T2 doc.metadata = false := by
      by_contra hne
      rw [Bool.not_eq_false] at hne
      obtain ⟨t, ht2, htds⟩ := (tagCheck_iff T2 doc.metadata ds hds).mp hne
      exact hdisj t (hsub t htds) ht2
    have hrest : ∀ q ∈ rest, ∃ ds,
        (Prod.fst q).metadata.lookup "tags" = some (JValue.strList ds) ∧
          ∀ t ∈ ds, t ∈ T1 :=
      fun q hq => hl q (List.mem_cons_of_mem _ hq)
    rw [filterLoop_cons]
    by_cases hsc : score < st.similarity_threshold
    · rw [if_pos hsc]; exact ih hrest c
    · rw [if_neg hsc]
      have hcond : (!T2.isEmpty && !tagCheck T2 doc.metadata) = true := by
        rw [htc]
        cases T2 with
        | nil => exact absurd rfl hT2
        | cons a as => rfl
      rw [if_pos hcond]
      exact ih hrest c

theorem query_store_not_ready_eq (st : InstructionSettings) (documentCount : Nat)
    (search : Nat → Except String (List (Doc × Score)))
    (agentQuery : String → Except String AgentResult)
    (question : String) (tags : List String) (metadata_filter : Metadata) :
    query_with_similarity true false st documentCount search agentQuery
        question tags metadata_filter =
      (QueryOutcome.returned (storeNotReadyResult st), false) := rfl

theorem query_search_error_eq (st : InstructionSettings) (documentCount : Nat)
    (search : Nat → Except String (List (Doc × Score)))
    (agentQuery : String → Except String AgentResult)
    (question : String) (tags : List String) (metadata_filter : Metadata)
    (e : String)
    (hs : search (searchK st tags metadata_filter) = Except.error e) :
    query_with_similarity true true st documentCount search agentQuery
        question tags metadata_filter =
      (QueryOutcome.returned (searchExceptionResult st documentCount e), false) := by
  unfold query_with_similarity
  rw [hs]
  rfl

theorem query_no_relevant_eq (st : InstructionSettings) (documentCount : Nat)
    (search : Nat → Except String (List (Doc × Score)))
    (agentQuery : String → Except String AgentResult)
    (question : String) (tags : List String) (metadata_filter : Metadata)
    (l : List (Doc × Score))
    (hs : search (searchK st tags metadata_filter) = Except.ok l)
    (he : filterStep st tags metadata_filter l = []) :
    query_with_similarity true true st documentCount search agentQuery
        question tags metadata_filter =
      (QueryOutcome.returned (noRelevantResult st), false) := by
  unfold query_with_similarity
  rw [hs]
  simp [he]

theorem query_agent_error_eq (st : InstructionSettings) (documentCount : Nat)
    (search : Nat → Except String (List (Doc × Score)))
    (agentQuery : String → Except String AgentResult)
    (question : String) (tags : List String) (metadata_filter : Metadata)
    (l : List (Doc × Score)) (e : String)
    (hs : search (searchK st tags metadata_filter) = Except.ok l)
    (hne : filterStep st tags metadata_filter l ≠ [])
    (ha : agentQuery (enhancedQuestion st question) = Except.error e) :
    query_with_similarity true true st documentCount search agentQuery
        question tags metadata_filter =
      (QueryOutcome.returned (searchExceptionResult st documentCount e), true) := by
  unfold query_with_similarity
  rw [hs]
  simp [ha, List.length_eq_zero, hne]

theorem query_agent_ok_eq (st : InstructionSettings) (documentCount : Nat)
    (search : Nat → Except String (List (Doc × Score)))
    (agentQuery : String → Except String AgentResult)
    (question : String) (tags : List String) (metadata_filter : Metadata)
    (l : List (Doc × Score)) (result : AgentResult)
    (hs : search (searchK st tags metadata_filter) = Except.ok l)
    (hne : filterStep st tags metadata_filter l ≠ [])
    (ha : agentQuery (enhancedQuestion st question) = Except.ok result) :
    query_with_similarity true true st documentCount search agentQuery
        question tags metadata_filter =
      (QueryOutcome.returned
        { success := result.success
          answer :=
            if st.response_length == "short" then shortTruncate result.answer
            else result.answer
          similarity_scores :=
            if st.show_similarity_scores then
              some ((filterStep st tags metadata_filter l).map mkSimilarityInfo)
            else none
          chunks_retrieved := (filterStep st tags metadata_filter l).length
          settings_used := settingsUsed st
          error := result.error
          sources := some result.sources }, true) := by
  unfold query_with_similarity
  rw [hs]
  simp only [ha, List.length_eq_zero, hne, Bool.not_true, Bool.false_eq_true,
    if_false, ite_false]
  by_cases h : st.show_similarity_scores = true <;> simp [h]

theorem searchExceptionResult_success (st : InstructionSettings)
    (documentCount : Nat) (e : String) :
    (searchExceptionResult st documentCount e).success = false := by
  unfold searchExceptionResult
  split <;> rfl

theorem searchExceptionResult_error_isSome (st : InstructionSettings)
    (documentCount : Nat) (e : String) :
    (searchExceptionResult st documentCount e).error.isSome = true := by
  unfold searchExceptionResult
  split <;> rfl

theorem lookup_eraseKey_self {α : Type} (k : String) (l : List (String × α)) :
    (eraseKey k l).lookup k = none := by
  rw [List.lookup_eq_none_iff]
  intro p hp
  have h2 := (List.mem_filter.mp hp).2
  rw [Bool.not_eq_true', beq_eq_false_iff_ne] at h2
  simp only [bne_iff_ne, ne_eq]
  exact fun hk => h2 hk.symm

theorem length_eraseKey_of_nodup {α : Type} (k : String) (l : List (String × α))
    (hnd : (l.map Prod.fst).Nodup) (hmem : k ∈ l.map Prod.fst) :
    (eraseKey k l).length + 1 = l.length := by
  induction l with
  | nil => simp at hmem
  | cons p t ih =>
    obtain ⟨pk, pv⟩ := p
    rw [List.map_cons, List.nodup_cons] at hnd
    rw [List.map_cons, List.mem_cons] at hmem
    by_cases hpk : pk = k
    · have ht : t.filter (fun q => !(q.1 == k)) = t := by
        apply List.filter_eq_self.mpr
        intro q hq
        rw [Bool.not_eq_true', beq_eq_false_iff_ne]
        intro hqk
        have hq1 : q.1 ∈ t.map Prod.fst := List.mem_map_of_mem Prod.fst hq
        rw [hqk, ← hpk] at hq1
        exact hnd.1 hq1
      have hb : (!(pk == k)) = false := by simp [hpk]
      simp [eraseKey, List.filter_cons, hb, ht]
    · have hmem' : k ∈ t.map Prod.fst := by
        rcases hmem with h1 | h2
        · exact absurd h1.symm hpk
        · exact h2
      have hlen := ih hnd.2 hmem'
      have hb : (pk == k) = false := beq_eq_false_iff_ne.mpr hpk
      simp only [eraseKey, List.filter_cons, hb, Bool.not_false, if_pos,
        List.length_cons] at hlen ⊢
      omega

theorem mem_keys_eraseKey {α : Type} (k : String) (l : List (String × α))
    (x : String) (hx : x ∈ (eraseKey k l).map Prod.fst) :
    x ∈ l.map Prod.fst := by
  obtain ⟨p, hp, hpx⟩ := List.mem_map.mp hx
  exact hpx ▸ List.mem_map_of_mem Prod.fst (List.mem_of_mem_filter hp)

theorem mem_keys_setKey {α : Type} (l : List (String × α)) (k : String) (v : α)
    (x : String) (hx : x ∈ (setKey l k v).map Prod.fst) :
    x ∈ l.map Prod.fst ∨ x = k := by
  unfold setKey at hx
  by_cases h : l.any (fun p => p.1 == k) = true
  · rw [if_pos h, List.map_map] at hx
    obtain ⟨p, hp, hpx⟩ := List.mem_map.mp hx
    by_cases hpk : (p.1 == k) = true
    · right
      simp only [Function.comp, if_pos hpk] at hpx
      exact hpx ▸ rfl
    · left
      simp only [Function.comp, if_neg hpk] at hpx
      exact hpx ▸ List.mem_map_of_mem Prod.fst hp
  · rw [if_neg h, List.map_append] at hx
    rcases List.mem_append.mp hx with h1 | h2
    · left; exact h1
    · right
      simpa using h2

theorem delete_document_counter (s : RagState) (doc_id : String) :
    (delete_document s doc_id).2.document_counter = s.document_counter := by
  unfold delete_document
  split <;> rfl

theorem delete_document_vector_store (s : RagState) (doc_id : String) :
    (delete_document s doc_id).2.vector_store = s.vector_store := by
  unfold delete_document
  split <;> rfl

theorem idsBounded_initial : idsBounded initialState := by
  intro id h
  simp [initialState] at h

theorem mem_keys_add_documents (s : RagState) (documents : List Doc)
    (filename : Option String) (file_size : Option Nat) (tags : List String)
    (metadata : Metadata) (now : String) (x : String)
    (hx : x ∈ (add_documents s documents filename file_size tags metadata
        now).uploaded_documents.map Prod.fst) :
    x ∈ s.uploaded_documents.map Prod.fst ∨
      x = formatDocId (s.document_counter + 1) :=
  mem_keys_setKey _ _ _ _ hx

theorem mem_keys_delete_document (s : RagState) (doc_id : String) (x : String)
    (hx : x ∈ (delete_document s doc_id).2.uploaded_documents.map Prod.fst) :
    x ∈ s.uploaded_documents.map Prod.fst := by
  unfold delete_document at hx
  split at hx
  · exact hx
  · exact mem_keys_eraseKey doc_id s.uploaded_documents x hx

theorem idsBounded_step (s : RagState) (op : RegOp) (h : idsBounded s) :
    idsBounded (stepOp s op) := by
  cases op with
  | add documents filename file_size tags metadata now =>
    intro id hid
    have hc : (stepOp s (RegOp.add documents filename file_size tags metadata
        now)).document_counter = s.document_counter + 1 := rfl
    rw [hc]
    rcases mem_keys_add_documents s documents filename file_size tags metadata
        now id hid with hold | hnew
    · obtain ⟨m, h1, h2, h3⟩ := h id hold
      exact ⟨m, h1, by omega, h3⟩
    · exact ⟨s.document_counter + 1, by omega, by omega, hnew⟩
  | delete doc_id =>
    intro id hid
    have hc : (stepOp s (RegOp.delete doc_id)).document_counter =
        s.document_counter := delete_document_counter s doc_id
    rw [hc]
    exact h id (mem_keys_delete_document s doc_id id hid)
  | clearAll =>
    intro id hid
    simp [stepOp, clear_all_documents] at hid

theorem idsBounded_runOps (ops : List RegOp) :
    idsBounded (runOps initialState ops) := by
  suffices h : ∀ s, idsBounded s → idsBounded (runOps s ops) from
    h initialState idsBounded_initial
  induction ops with
  | nil => intro s hs; exact hs
  | cons op rest ih =>
    intro s hs
    exact ih (stepOp s op) (idsBounded_step s op hs)

theorem freshId_not_tracked (s : RagState) (h : idsBounded s) :
    formatDocId (s.document_counter + 1) ∉ s.uploaded_documents.map Prod.fst := by
  intro hmem
  obtain ⟨m, h1, h2, h3⟩ := h _ hmem
  have := formatDocId_inj _ _ h3
  omega

theorem assignedCounters_spec (ops : List RegOp) :
    ∀ s : RagState, (∀ op ∈ ops, op ≠ RegOp.clearAll) →
      (∀ x ∈ assignedCounters s ops, s.document_counter < x) ∧
        List.Chain' (fun a b => a < b) (assignedCounters s ops) := by
  induction ops with
  | nil =>
    intro s _
    exact ⟨fun x hx => by simp [assignedCounters] at hx, by simp [assignedCounters]⟩
  | cons op rest ih =>
    intro s hnc
    have hrest : ∀ o ∈ rest, o ≠ RegOp.clearAll :=
      fun o ho => hnc o (List.mem_cons_of_mem _ ho)
    cases op with
    | add documents filename file_size tags metadata now =>
      obtain ⟨hgt, hchain⟩ :=
        ih (stepOp s (RegOp.add documents filename file_size tags metadata now)) hrest
      have hcnt : (stepOp s
          (RegOp.add documents filename file_size tags metadata now)).document_counter =
          s.document_counter + 1 := rfl
      constructor
      · intro x hx
        rcases List.mem_cons.mp hx with hx0 | hx'
        · omega
        · have := hgt x hx'; omega
      · apply List.chain'_cons'.mpr
        refine ⟨fun y hy => ?_, hchain⟩
        have hym := List.mem_of_mem_head? hy
        have := hgt y hym
        omega
    | delete doc_id =>
      obtain ⟨hgt, hchain⟩ := ih (stepOp s (RegOp.delete doc_id)) hrest
      have hcnt : (stepOp s (RegOp.delete doc_id)).document_counter =
          s.document_counter := delete_document_counter s doc_id
      exact ⟨fun x hx => by have := hgt x hx; omega, hchain⟩
    | clearAll => exact absurd rfl (hnc RegOp.clearAll (List.mem_cons_self _ _))

theorem assignedIds_eq_map (ops : List RegOp) :
    ∀ s, assignedIds s ops = (assignedCounters s ops).map formatDocId := by
  induction ops with
  | nil => intro s; rfl
  | cons op rest ih =>
    intro s
    cases op with
    | add documents filename file_size tags metadata now =>
      show formatDocId (s.document_counter + 1) ::
          assignedIds (stepOp s (RegOp.add documents filename file_size tags metadata now)) rest = _
      rw [ih]
      rfl
    | delete doc_id => exact ih (stepOp s (RegOp.delete doc_id))
    | clearAll => exact ih (stepOp s RegOp.clearAll)

theorem mem_keys_of_lookup_isSome {α : Type} (k : String) (l : List (String × α))
    (h : (l.lookup k).isSome) : k ∈ l.map Prod.fst := by
  obtain ⟨p, hp, hb⟩ := List.lookup_isSome_iff.mp h
  rw [eq_of_beq hb]
  exact List.mem_map_of_mem Prod.fst hp

theorem any_key_of_lookup_isSome {α : Type} (k : String) (l : List (String × α))
    (h : (l.lookup k).isSome) : l.any (fun p => p.1 == k) = true := by
  rw [List.any_eq_true]
  obtain ⟨p, hp, hb⟩ := List.lookup_isSome_iff.mp h
  exact ⟨p, hp, beq_iff_eq.mpr (eq_of_beq hb).symm⟩

theorem lookup_eq_none_of_not_any {α : Type} (k : String) (l : List (String × α))
    (h : l.any (fun p => p.1 == k) = false) : l.lookup k = none := by
  rw [List.lookup_eq_none_iff]
  intro p hp
  have hp' := List.any_eq_false.mp h p hp
  simp only [beq_iff_eq] at hp'
  simp only [bne_iff_ne, ne_eq]
  exact fun he => hp' he.symm

theorem any_key_eq_false_of_lookup_none {α : Type} (k : String)
    (l : List (String × α)) (h : l.lookup k = none) :
    l.any (fun p => p.1 == k) = false := by
  rw [List.any_eq_false]
  intro p hp
  have hp' := List.lookup_eq_none_iff.mp h p hp
  simp only [bne_iff_ne, ne_eq] at hp'
  simp only [beq_iff_eq]
  exact fun he => hp' he.symm

/-! The claims. -/

/-- C1: when the similarity search succeeds but no chunk passes the
threshold and the tag/metadata filters, `query_with_similarity` returns
the fixed "cannot answer" dictionary with `success = false` and
`chunks_retrieved = 0`, and the generation agent is never invoked (the
Boolean component stays `false`). -/
theorem C1_no_relevant_no_generation (st : InstructionSettings)
    (documentCount : Nat)
    (search : Nat → Except String (List (Doc × Score)))
    (agentQuery : String → Except String AgentResult)
    (question : String) (tags : List String) (metadata_filter : Metadata)
    (l : List (Doc × Score))
    (hs : search (searchK st tags metadata_filter) = Except.ok l)
    (he : filterStep st tags metadata_filter l = []) :
    query_with_similarity true true st documentCount search agentQuery
        question tags metadata_filter =
      (QueryOutcome.returned (noRelevantResult st), false) ∧
    (noRelevantResult st).success = false ∧
    (noRelevantResult st).chunks_retrieved = 0 ∧
    (noRelevantResult st).answer =
      "ไม่สามารถตอบคำถามได้ เนื่องจากไม่พบข้อมูลที่เกี่ยวข้องในเอกสาร" :=
  ⟨query_no_relevant_eq st documentCount search agentQuery question tags
      metadata_filter l hs he, rfl, rfl, rfl⟩

/-- Witness for C1: a concrete query over an empty candidate list with the
default settings. -/
theorem C1_witness :
    query_with_similarity true true defaultSettings 0 emptySearch sampleAgent
        "q" [] [] =
      (QueryOutcome.returned (noRelevantResult defaultSettings), false) :=
  (C1_no_relevant_no_generation defaultSettings 0 emptySearch sampleAgent
      "q" [] [] [] rfl rfl).1

/-- C2: a threshold in the unit interval strictly above every candidate
score retains no candidate — on the tags/metadata loop, on the no-filter
path, and hence in the whole filtering step — and the query then reports
`chunks_retrieved = 0` with `success = false`. -/
theorem C2_threshold_above_all (st : InstructionSettings)
    (l : List (Doc × Score))
    (h0 : 0 ≤ st.similarity_threshold) (h1 : st.similarity_threshold ≤ 1)
    (hall : ∀ p ∈ l, p.2 < st.similarity_threshold) :
    (∀ (tags : List String) (metadata_filter : Metadata) (collected : Nat),
        filterLoop st tags metadata_filter collected l = []) ∧
    thresholdTruncate st l = [] ∧
    (∀ (tags : List String) (metadata_filter : Metadata),
        filterStep st tags metadata_filter l = []) ∧
    (∀ (documentCount : Nat)
        (search : Nat → Except String (List (Doc × Score)))
        (agentQuery : String → Except String AgentResult)
        (question : String) (tags : List String) (metadata_filter : Metadata),
        search (searchK st tags metadata_filter) = Except.ok l →
        ∃ r, query_with_similarity true true st documentCount search agentQuery
            question tags metadata_filter = (QueryOutcome.returned r, false) ∧
          r.chunks_retrieved = 0 ∧ r.success = false) := by
  refine ⟨fun tags mf c => filterLoop_all_below st tags mf l hall c,
    thresholdTruncate_all_below st l hall,
    fun tags mf => filterStep_all_below st tags mf l hall, ?_⟩
  intro documentCount search agentQuery question tags mf hs
  exact ⟨noRelevantResult st,
    query_no_relevant_eq st documentCount search agentQuery question tags mf l
      hs (filterStep_all_below st tags mf l hall), rfl, rfl⟩

/-- Witness for C2: threshold 1/5 against a single candidate scoring 1/10,
on both the tag-filter path and the no-filter path. -/
theorem C2_witness :
    filterStep defaultSettings ["lang"] [] [(sampleDoc, 1/10)] = [] ∧
    thresholdTruncate defaultSettings [(sampleDoc, 1/10)] = [] :=
  have h := C2_threshold_above_all defaultSettings [(sampleDoc, 1/10)]
    (by norm_num [defaultSettings]) (by norm_num [defaultSettings])
    (by
      intro p hp
      rw [List.mem_singleton] at hp
      subst hp
      norm_num [defaultSettings])
  ⟨h.2.2.1 ["lang"] [], h.2.1⟩

/-- C3 counterexample: the metadata filter entry `category ↦ None` accepts
a chunk whose metadata lacks the key `category` entirely — Python
`dict.get` reads the missing key as `None` — although the claim requires
every filter key to be present in the chunk's metadata. -/
theorem C3_counterexample :
    metadataCheck [("category", JValue.null)] [] = true ∧
    ([] : Metadata).lookup "category" = none :=
  ⟨rfl, rfl⟩

/-- C3 amended: the metadata predicate accepts a chunk iff every filter
key is either present with an equal value or absent while the filter's
value is `None` (a missing key reads as `None`). In particular a chunk
holding all filter keys with equal values is always accepted, and a
missing or unequal key rejects except when the filter's value for that key
is `None`. -/
theorem C3_amended_metadata_and_semantics
    (metadata_filter doc_metadata : Metadata) :
    metadataCheck metadata_filter doc_metadata = true ↔
      ∀ kv ∈ metadata_filter,
        doc_metadata.lookup kv.1 = some kv.2 ∨
          (doc_metadata.lookup kv.1 = none ∧ kv.2 = JValue.null) :=
  metadataCheck_iff metadata_filter doc_metadata

/-- Witness for C3 amended: a filter entry present with an equal value is
accepted on a chunk whose metadata is a strict superset of the filter. -/
theorem C3_witness :
    metadataCheck [("year", JValue.int 2024)]
      [("year", JValue.int 2024), ("source", JValue.str "a.txt")] = true :=
  (C3_amended_metadata_and_semantics
      [("year", JValue.int 2024)]
      [("year", JValue.int 2024), ("source", JValue.str "a.txt")]).mpr
    (by decide)

/-- C4: the tag predicate accepts a chunk iff its stored tag list shares
at least one tag with the requested tags (OR across requested tags), and
for disjoint tag sets `T1, T2` the filtering loop requesting `T2` over
candidates tagged only from `T1` retains nothing. -/
theorem C4_tag_or_semantics :
    (∀ (tags : List String) (md : Metadata) (ds : List String),
        md.lookup "tags" = some (JValue.strList ds) →
        (tagCheck tags md = true ↔ ∃ t, t ∈ tags ∧ t ∈ ds)) ∧
    (∀ (st : InstructionSettings) (T1 T2 : List String)
        (l : List (Doc × Score)),
        (∀ t ∈ T1, t ∉ T2) → T2 ≠ [] →
        (∀ p ∈ l, ∃ ds,
            (Prod.fst p).metadata.lookup "tags" = some (JValue.strList ds) ∧
              ∀ t ∈ ds, t ∈ T1) →
        ∀ collected, filterLoop st T2 [] collected l = []) :=
  ⟨fun tags md ds h => tagCheck_iff tags md ds h,
   fun st T1 T2 l hdisj hT2 hl => filterLoop_disjoint_tags st T1 T2 l hdisj hT2 hl⟩

/-- Witness for C4: requesting tag `database` over a chunk tagged only
`lang` retains nothing, even with a passing score. -/
theorem C4_witness :
    filterLoop defaultSettings ["database"] [] 0 [(sampleDoc, 1)] = [] :=
  C4_tag_or_semantics.2 defaultSettings ["lang"] ["database"] [(sampleDoc, 1)]
    (by decide) (by decide)
    (by
      intro p hp
      rw [List.mem_singleton] at hp
      subst hp
      exact ⟨["lang"], rfl, by decide⟩)
    0

set_option maxRecDepth 4000 in
/-- C5: the 300-character ceiling the claim states is violated by the
code. This answer is longer than 300 characters and its last space within
the first 300 characters sits at index 299 (after position 250), so the
code keeps 299 characters and appends the three-character ellipsis: the
result has 302 characters, against the code's own "enforce strict length
limit" comment and the 300-character ceiling. -/
theorem C5_short_truncate_exceeds_ceiling :
    c5Input.length = 310 ∧
    pyRfind (pySlice c5Input 300) ' ' = 299 ∧
    (shortTruncate c5Input).length = 302 ∧
    ¬ (shortTruncate c5Input).length ≤ 300 := by
  refine ⟨by decide, by decide, by decide, by decide⟩

/-- C6: `update_settings` is all-or-nothing — a failed persistence write
returns `False` and leaves `get_settings` unchanged, and the in-memory
settings are replaced exactly when persistence succeeds. -/
theorem C6_update_settings_all_or_nothing
    (current new_settings : InstructionSettings) :
    (update_settings current new_settings false).1 = false ∧
    get_settings (update_settings current new_settings false).2 =
      get_settings current ∧
    (update_settings current new_settings true).1 = true ∧
    get_settings (update_settings current new_settings true).2 = new_settings :=
  ⟨rfl, rfl, rfl, rfl⟩

/-- C7 counterexample: with the agent not initialised the call raises
`ValueError("Agent not initialized")` across the public boundary — before
the `try` block — instead of returning a result value. -/
theorem C7_counterexample :
    query_with_similarity false true defaultSettings 0 emptySearch sampleAgent
        "q" [] [] =
      (QueryOutcome.raised "Agent not initialized", false) := rfl

/-- C7 amended: once the agent is initialised, `query_with_similarity`
always returns a dictionary — never raises — and on every terminal failure
(store not ready, search exception, nothing relevant, agent exception) the
dictionary has `success = false` and a non-empty `error`; with the agent
uninitialised the call instead raises `ValueError("Agent not
initialized")`. -/
theorem C7_amended_failures_returned (st : InstructionSettings)
    (documentCount : Nat)
    (search : Nat → Except String (List (Doc × Score)))
    (agentQuery : String → Except String AgentResult)
    (question : String) (tags : List String) (metadata_filter : Metadata) :
    (∀ vectorStoreReady : Bool, ∃ r b,
        query_with_similarity true vectorStoreReady st documentCount search
          agentQuery question tags metadata_filter =
          (QueryOutcome.returned r, b)) ∧
    ((query_with_similarity true false st documentCount search agentQuery
        question tags metadata_filter).1 =
      QueryOutcome.returned (storeNotReadyResult st) ∧
      (storeNotReadyResult st).success = false ∧
      (storeNotReadyResult st).error.isSome = true) ∧
    (∀ e, search (searchK st tags metadata_filter) = Except.error e →
      (query_with_similarity true true st documentCount search agentQuery
          question tags metadata_filter).1 =
        QueryOutcome.returned (searchExceptionResult st documentCount e) ∧
      (searchExceptionResult st documentCount e).success = false ∧
      (searchExceptionResult st documentCount e).error.isSome = true) ∧
    (∀ l, search (searchK st tags metadata_filter) = Except.ok l →
      filterStep st tags metadata_filter l = [] →
      (query_with_similarity true true st documentCount search agentQuery
          question tags metadata_filter).1 =
        QueryOutcome.returned (noRelevantResult st) ∧
      (noRelevantResult st).success = false ∧
      (noRelevantResult st).error.isSome = true) ∧
    (∀ l e, search (searchK st tags metadata_filter) = Except.ok l →
      filterStep st tags metadata_filter l ≠ [] →
      agentQuery (enhancedQuestion st question) = Except.error e →
      (query_with_similarity true true st documentCount search agentQuery
          question tags metadata_filter).1 =
        QueryOutcome.returned (searchExceptionResult st documentCount e) ∧
      (searchExceptionResult st documentCount e).success = false ∧
      (searchExceptionResult st documentCount e).error.isSome = true) ∧
    (query_with_similarity false true st documentCount search agentQuery
        question tags metadata_filter).1 =
      QueryOutcome.raised "Agent not initialized" := by
  refine ⟨?_, ?_, ?_, ?_, ?_, rfl⟩
  · intro vsReady
    cases vsReady with
    | false =>
      exact ⟨storeNotReadyResult st, false,
        query_store_not_ready_eq st documentCount search agentQuery question
          tags metadata_filter⟩
    | true =>
      cases hs : search (searchK st tags metadata_filter) with
      | error e =>
        exact ⟨searchExceptionResult st documentCount e, false,
          query_search_error_eq st documentCount search agentQuery question
            tags metadata_filter e hs⟩
      | ok l =>
        by_cases he : filterStep st tags metadata_filter l = []
        · exact ⟨noRelevantResult st, false,
            query_no_relevant_eq st documentCount search agentQuery question
              tags metadata_filter l hs he⟩
        · cases ha : agentQuery (enhancedQuestion st question) with
          | error e =>
            exact ⟨searchExceptionResult st documentCount e, true,
              query_agent_error_eq st documentCount search agentQuery question
                tags metadata_filter l e hs he ha⟩
          | ok result =>
            exact ⟨_, true,
              query_agent_ok_eq st documentCount search agentQuery question
                tags metadata_filter l result hs he ha⟩
  · exact ⟨by
      rw [query_store_not_ready_eq st documentCount search agentQuery question
        tags metadata_filter], rfl, rfl⟩
  · intro e hs
    exact ⟨by
      rw [query_search_error_eq st documentCount search agentQuery question
        tags metadata_filter e hs],
      searchExceptionResult_success st documentCount e,
      searchExceptionResult_error_isSome st documentCount e⟩
  · intro l hs he
    exact ⟨by
      rw [query_no_relevant_eq st documentCount search agentQuery question
        tags metadata_filter l hs he], rfl, rfl⟩
  · intro l e hs hne ha
    exact ⟨by
      rw [query_agent_error_eq st documentCount search agentQuery question
        tags metadata_filter l e hs hne ha],
      searchExceptionResult_success st documentCount e,
      searchExceptionResult_error_isSome st documentCount e⟩

/-- Witness for C7 amended: a concrete raising search backend is captured
and returned as a `success = false` dictionary. -/
theorem C7_witness :
    (query_with_similarity true true defaultSettings 0 failingSearch
        sampleAgent "q" [] []).1 =
      QueryOutcome.returned (searchExceptionResult defaultSettings 0 "boom") :=
  ((C7_amended_failures_returned defaultSettings 0 failingSearch sampleAgent
      "q" [] []).2.2.1 "boom" rfl).1

/-- C8: deleting a tracked document removes it from the registry and from
the chunk map — afterwards `get_document` returns nothing and the document
count drops by exactly one — while the vector store is unchanged, so later
similarity searches see the same indexed vectors as before the delete. -/
theorem C8_delete_tracked (s : RagState) (doc_id : String)
    (info : DocumentInfo)
    (hnd : (s.uploaded_documents.map Prod.fst).Nodup)
    (htracked : get_document s doc_id = some info) :
    (delete_document s doc_id).1 = true ∧
    get_document (delete_document s doc_id).2 doc_id = none ∧
    (delete_document s doc_id).2.document_chunks.lookup doc_id = none ∧
    get_document_count (delete_document s doc_id).2 + 1 =
      get_document_count s ∧
    (delete_document s doc_id).2.vector_store = s.vector_store := by
  have hsome : (s.uploaded_documents.lookup doc_id).isSome := by
    unfold get_document at htracked
    rw [htracked]
    rfl
  have hany := any_key_of_lookup_isSome doc_id s.uploaded_documents hsome
  have hd : delete_document s doc_id =
      (true,
        { s with
          uploaded_documents := eraseKey doc_id s.uploaded_documents
          document_chunks :=
            if s.document_chunks.any (fun p => p.1 == doc_id) then
              eraseKey doc_id s.document_chunks
            else s.document_chunks }) := by
    unfold delete_document
    rw [hany]
    rfl
  refine ⟨by rw [hd], ?_, ?_, ?_, by rw [hd]⟩
  · rw [hd]
    exact lookup_eraseKey_self doc_id s.uploaded_documents
  · rw [hd]
    dsimp only
    by_cases hc : s.document_chunks.any (fun p => p.1 == doc_id) = true
    · rw [if_pos hc]
      exact lookup_eraseKey_self doc_id s.document_chunks
    · rw [if_neg hc]
      exact lookup_eq_none_of_not_any doc_id s.document_chunks
        (Bool.not_eq_true _ ▸ hc)
  · rw [hd]
    exact length_eraseKey_of_nodup doc_id s.uploaded_documents hnd
      (mem_keys_of_lookup_isSome doc_id s.uploaded_documents hsome)

/-- Witness for C8 on the one-document state. -/
theorem C8_witness :
    (delete_document trackedState "doc_00000001").1 = true ∧
    get_document (delete_document trackedState "doc_00000001").2
      "doc_00000001" = none ∧
    (delete_document trackedState "doc_00000001").2.vector_store =
      trackedState.vector_store :=
  have h := C8_delete_tracked trackedState "doc_00000001" sampleInfo
    (by decide) rfl
  ⟨h.1, h.2.1, h.2.2.2.2⟩

/-- C9 counterexample: `clear_all_documents` resets the counter, so the
adds before and after a clear both receive `doc_00000001` — the ids
assigned across an add/clear-all/add sequence are not monotonically
assigned (the same id repeats). -/
theorem C9_counterexample :
    assignedIds initialState [addOp, RegOp.clearAll, addOp] =
      ["doc_00000001", "doc_00000001"] ∧
    ¬ List.Chain' (fun a b : String => a < b)
      (assignedIds initialState [addOp, RegOp.clearAll, addOp]) := by
  constructor
  · rfl
  · intro hc
    rw [show assignedIds initialState [addOp, RegOp.clearAll, addOp] =
      ["doc_00000001", "doc_00000001"] from rfl, List.chain'_cons] at hc
    exact lt_irrefl _ hc.1

/-- C9 amended: document ids are the zero-padded sequential tokens
`formatDocId` of the counter; for every state reachable from the initial
state the id the next add would mint is not among the tracked ids; within
any operation sequence free of clear-all the counters backing the assigned
ids are strictly increasing; and `clear_all_documents` resets the counter
to zero, so ids repeat across a clear (monotonicity across clear-all
fails, as the counterexample shows). -/
theorem C9_amended_id_discipline :
    (∀ (s : RagState) (ops : List RegOp),
        assignedIds s ops = (assignedCounters s ops).map formatDocId) ∧
    (∀ ops : List RegOp,
        formatDocId ((runOps initialState ops).document_counter + 1) ∉
          (runOps initialState ops).uploaded_documents.map Prod.fst) ∧
    (∀ (s : RagState) (ops : List RegOp),
        (∀ op ∈ ops, op ≠ RegOp.clearAll) →
        List.Chain' (fun a b => a < b) (assignedCounters s ops)) ∧
    (∀ s : RagState, (clear_all_documents s).2.document_counter = 0) :=
  ⟨fun s ops => assignedIds_eq_map ops s,
   fun ops => freshId_not_tracked (runOps initialState ops) (idsBounded_runOps ops),
   fun s ops h => (assignedCounters_spec ops s h).2,
   fun _ => rfl⟩

/-- Witness for C9 amended: two adds with no clear-all between them get
strictly increasing counters, and after one add the next id is untracked. -/
theorem C9_witness :
    List.Chain' (fun a b => a < b)
      (assignedCounters initialState [addOp, addOp]) ∧
    formatDocId ((runOps initialState [addOp]).document_counter + 1) ∉
      (runOps initialState [addOp]).uploaded_documents.map Prod.fst :=
  ⟨C9_amended_id_discipline.2.2.1 initialState [addOp, addOp] (by decide),
   C9_amended_id_discipline.2.1 [addOp]⟩

/-- C10: deleting an id that is not tracked returns `False` and leaves the
whole state — registry, chunk map, counter, metadata cache and vector
store — exactly as it was. -/
theorem C10_delete_untracked (s : RagState) (doc_id : String)
    (h : get_document s doc_id = none) :
    delete_document s doc_id = (false, s) := by
  have hany : s.uploaded_documents.any (fun p => p.1 == doc_id) = false :=
    any_key_eq_false_of_lookup_none doc_id s.uploaded_documents h
  unfold delete_document
  rw [hany]
  rfl

/-- Witness for C10 on the empty initial state. -/
theorem C10_witness :
    delete_document initialState "doc_00000001" = (false, initialState) :=
  C10_delete_untracked initialState "doc_00000001" rfl

end CofiveRAG
